import Mathlib

/-!
Shallow embedding of the resilience layer in `db/db.go` of registrobr/gostk:
the bounded transaction acquirer `newTx`, the reachability prober
`dbChecker.check`, and the connection gateway `DB.Begin`.

Pure data and control flow are translated directly from the Go source.
Concurrency is embedded explicitly:

* channels are values (capacity, buffer, closed flag) and every send/receive
  reports whether it would block;
* the `select` statement follows the Go specification: if exactly one case is
  ready it is taken; if several are ready the choice is a uniform pseudo-random
  pick, embedded as an explicit choice parameter;
* the result of the background goroutine's `db.Begin()` call and its arrival
  time relative to the timer are inputs of the run function.
-/

namespace Gostk

/-- Opaque transaction handle returned by the pool's begin primitive
(`*sql.Tx` in the source); only its identity matters. -/
abbrev Tx := Nat

/-- The errors surfaced by the db layer: `ErrNewTxTimedOut`, `ErrUnreachable`
(both declared at the top of db.go) and any other error of the underlying
pool, propagated verbatim. -/
inductive DbErr where
  | newTxTimedOut
  | unreachableDb
  | underlying (msg : String)
deriving DecidableEq, Repr

/-- A Go channel value: fixed capacity, current buffer, closed flag. -/
structure Channel (α : Type) where
  cap : Nat
  buf : List α
  closed : Bool
deriving DecidableEq, Repr

/-- A fresh buffered channel of capacity `n`, as `make(chan T, n)` creates. -/
def Channel.make (α : Type) (n : Nat) : Channel α :=
  Channel.mk n [] false

/-- Buffered send: deposits the value when the buffer has room and reports
`false` (no blocking); reports `true` when the send would block. -/
def Channel.send {α : Type} (c : Channel α) (a : α) : Channel α × Bool :=
  if c.buf.length < c.cap then
    (Channel.mk c.cap (c.buf ++ [a]) c.closed, false)
  else
    (c, true)

/-- Receive with the two-value form `v, ok := <-c`: a buffered value gives
`(some v, ok = true)`; an empty closed channel gives the zero value
`(none, ok = false)`; an empty open channel blocks (third component). -/
def Channel.recv {α : Type} (c : Channel α) : Option α × Channel α × Bool :=
  match c.buf with
  | v :: rest => (some v, Channel.mk c.cap rest c.closed, false)
  | [] => if c.closed then (none, c, false) else (none, c, true)

/-- Close the channel, as `close(c)` does. -/
def Channel.closeCh {α : Type} (c : Channel α) : Channel α :=
  Channel.mk c.cap c.buf true

/-- When the background goroutine's deposit (into `ch` or `chErr`) becomes
visible relative to the firing of `time.After(timeout)`: strictly before the
timer, exactly together with it, or strictly after it. -/
inductive Arrival where
  | before
  | tie
  | after
deriving DecidableEq, Repr

/-- The case the `select` in `newTx` executes: the result-channel case
(`ch` or `chErr`, whichever the goroutine used) or the timer case. -/
inductive SelCase where
  | result
  | timer
deriving DecidableEq, Repr

/-- Which `select` case fires, per the Go specification: the only ready case
when one is ready first; a uniform pseudo-random pick (parameter `tieTx`,
`true` choosing the result channel) when both are ready together. -/
def selCase (arrival : Arrival) (tieTx : Bool) : SelCase :=
  match arrival with
  | Arrival.before => SelCase.result
  | Arrival.after => SelCase.timer
  | Arrival.tie => if tieTx then SelCase.result else SelCase.timer

deriving instance DecidableEq for Except

/-- Everything a single invocation of `newTx(db, timeout)` produces. -/
structure NewTxRun where
  /-- the pair `(*sql.Tx, error)` returned to the caller -/
  result : Except DbErr Tx
  /-- the transaction delivered to the caller, when any -/
  callerTx : Option Tx
  /-- the transaction the background goroutine committed itself on the
  late-arrival path, when any -/
  lateCommit : Option Tx
  /-- the background goroutine ran to completion (no leak) -/
  goroutineDone : Bool
  /-- some channel send in this invocation would have blocked -/
  sendBlocked : Bool
  /-- the goroutine's final `<-cancel` would have blocked forever -/
  recvStuck : Bool
deriving DecidableEq, Repr

/-- One invocation of `newTx` (db.go lines 309-349), threading the three
capacity-1 channels through the operations in program order.

Inputs: `beginRes` is what the goroutine's `db.Begin()` call produces;
`arrival` and `tieTx` fix which `select` case fires; `commitOk` is the result
of the goroutine's `tx.Commit()` on the late path (the source discards it).

The goroutine body is `tx, err := db.Begin(); if err != nil { chErr <- err;
return }; ch <- tx; if c, ok := <-cancel; ok && c { tx.Commit() }`. The
select sends `cancel <- false` on the `ch` case, closes `cancel` on the
`chErr` case and sends `cancel <- true` on the timeout case, so the
goroutine's `<-cancel` is evaluated against the channel state the executed
select case leaves behind. -/
def newTxRun (beginRes : Except String Tx) (arrival : Arrival) (tieTx : Bool)
    (commitOk : Bool) : NewTxRun :=
  let ch0 := Channel.make Tx 1
  let chErr0 := Channel.make String 1
  let cancel0 := Channel.make Bool 1
  match beginRes with
  | Except.error e =>
    -- goroutine: chErr <- err; return
    let s1 := chErr0.send e
    let chErr1 := s1.1
    match selCase arrival tieTx with
    | SelCase.result =>
      -- select case err := <-chErr: close(cancel); return nil, err
      let r1 := chErr1.recv
      let _cancel1 := cancel0.closeCh
      NewTxRun.mk (Except.error (DbErr.underlying e)) none none true
        (s1.2 || r1.2.2) false
    | SelCase.timer =>
      -- select case <-time.After: cancel <- true; return nil, ErrNewTxTimedOut
      let s2 := cancel0.send true
      NewTxRun.mk (Except.error DbErr.newTxTimedOut) none none true
        (s1.2 || s2.2) false
  | Except.ok t =>
    -- goroutine: ch <- tx
    let s1 := ch0.send t
    let ch1 := s1.1
    match selCase arrival tieTx with
    | SelCase.result =>
      -- select case tx := <-ch: cancel <- false; return tx, nil
      let r1 := ch1.recv
      let txRecv := r1.1.getD 0
      let s2 := cancel0.send false
      -- goroutine: c, ok := <-cancel; ok && c is false, no commit
      let r2 := s2.1.recv
      let c := r2.1.getD false
      NewTxRun.mk (Except.ok txRecv) (some txRecv) (if c then some txRecv else none)
        true (s1.2 || s2.2) r2.2.2
    | SelCase.timer =>
      -- select case <-time.After: cancel <- true; return nil, ErrNewTxTimedOut
      let s2 := cancel0.send true
      -- goroutine: c, ok := <-cancel receives true; tx.Commit(), error dropped
      let r2 := s2.1.recv
      let c := r2.1.getD false
      let _ := commitOk
      NewTxRun.mk (Except.error DbErr.newTxTimedOut) none
        (if c then some t else none) true (s1.2 || s2.2) r2.2.2

/-- A created transaction ends owned by exactly one party: delivered to the
caller with no acquirer commit, or committed by the acquirer with no
delivery — never both, never neither. -/
def releasedByExactlyOne (t : Tx) (r : NewTxRun) : Prop :=
  (r.callerTx = some t ∧ r.lateCommit = none) ∨
    (r.callerTx = none ∧ r.lateCommit = some t)

instance (t : Tx) (r : NewTxRun) : Decidable (releasedByExactlyOne t r) := by
  unfold releasedByExactlyOne
  infer_instance

/-- The `dbChecker` struct: an RWMutex-guarded boolean `checking`. The mutex
serialises the operations below; each operation is embedded as one atomic
step on the flag. -/
structure DbChecker where
  checking : Bool
deriving DecidableEq, Repr

/-- `dbChecker.unreachable`: read the flag under the read lock. -/
def DbChecker.unreachable (d : DbChecker) : Bool :=
  d.checking

/-- `dbChecker.start`: under the write lock, return `false` when already
checking, otherwise set the flag and return `true`. -/
def DbChecker.start (d : DbChecker) : Bool × DbChecker :=
  if d.checking then (false, d) else (true, DbChecker.mk true)

/-- `dbChecker.stop`: under the write lock, clear the flag. -/
def DbChecker.stop (_d : DbChecker) : DbChecker :=
  DbChecker.mk false

/-- The underlying `*sql.DB` pool, reduced to the operations the `DB` wrapper
exposes by embedding. Each operation's behaviour is an arbitrary function,
since this layer never interprets it. -/
structure Pool where
  query : String → Int
  exec : String → Int
  queryRow : String → Int
  ping : Bool
  closePool : Bool

/-- The `DB` struct: the embedded `*sql.DB`, the `dbChecker` and the
configured transaction timeout (nanoseconds). -/
structure DB where
  pool : Pool
  checker : DbChecker
  txTimeout : Nat

/-- `NewDB(db, txTimeout)`: the checker starts zero-valued (not checking). -/
def NewDB (pool : Pool) (txTimeout : Nat) : DB :=
  DB.mk pool (DbChecker.mk false) txTimeout

/-- Go method promotion: `DB` declares no `Query` method, so `db.Query`
resolves to the embedded `*sql.DB`'s method, with no mediation. -/
def DB.query (db : DB) (q : String) : Int :=
  db.pool.query q

/-- Promoted `Exec` of the embedded `*sql.DB` (see `DB.query`). -/
def DB.exec (db : DB) (q : String) : Int :=
  db.pool.exec q

/-- Promoted `QueryRow` of the embedded `*sql.DB` (see `DB.query`). -/
def DB.queryRow (db : DB) (q : String) : Int :=
  db.pool.queryRow q

/-- Promoted `Ping` of the embedded `*sql.DB` (see `DB.query`). -/
def DB.ping (db : DB) : Bool :=
  db.pool.ping

/-- Promoted `Close` of the embedded `*sql.DB` (see `DB.query`). -/
def DB.closeDB (db : DB) : Bool :=
  db.pool.closePool

/-- What one synchronous call of `DB.Begin` produces. -/
structure BeginOut where
  /-- the `(*sql.Tx, error)` pair returned to the caller -/
  result : Except DbErr Tx
  /-- the checker flag when `Begin` returns (`Begin` itself never writes it) -/
  checkerAfter : DbChecker
  /-- `newTx` (and hence the pool's begin primitive) was invoked -/
  acquirerInvoked : Bool
  /-- a `go db.checker.check(...)` goroutine was spawned -/
  spawnedChecker : Bool
  /-- messages emitted through the log package: the body of `Begin` (and of
  the whole db package) contains no logging call, so this is always empty -/
  logs : List String
deriving DecidableEq, Repr

/-- `DB.Begin` (db.go lines 294-307): fail fast when the checker reports
unreachable; otherwise delegate to `newTx` and, exactly when the result is
`ErrNewTxTimedOut`, spawn the checker goroutine. The `newTxRun` inputs stand
for the behaviour of the underlying pool and scheduler on this call. -/
def DB.begin (db : DB) (beginRes : Except String Tx) (arrival : Arrival)
    (tieTx : Bool) (commitOk : Bool) : BeginOut :=
  if db.checker.unreachable then
    BeginOut.mk (Except.error DbErr.unreachableDb) db.checker false false []
  else
    let r := newTxRun beginRes arrival tieTx commitOk
    BeginOut.mk r.result db.checker true
      (decide (r.result = Except.error DbErr.newTxTimedOut)) []

/-- `Unreachable(db)`: a nil gateway is reachable; otherwise read the flag. -/
def Unreachable (db : Option DB) : Bool :=
  match db with
  | none => false
  | some d => d.checker.unreachable

/-- The fixed probe interval: `time.Tick(2 * time.Second)`, in seconds. -/
def tickSeconds : Nat := 2

/-- Observable events of one `dbChecker.check` loop instance, in order. -/
inductive CheckEvent where
  | tick
  | probe
  | stopFlag
  | commitTx (t : Tx)
deriving DecidableEq, Repr

/-- What one `dbChecker.check` invocation produces. -/
structure CheckRun where
  /-- the checker flag when this instance is done with it -/
  finalChecking : Bool
  /-- the probe transaction committed on success, when any -/
  committedTx : Option Tx
  /-- number of `newTx` probe attempts made -/
  attemptsMade : Nat
  /-- seconds spent waiting on the tick across the attempts made -/
  elapsedSeconds : Nat
  /-- the events of the loop, in program order -/
  events : List CheckEvent
  /-- the loop returned (rather than still awaiting further attempts) -/
  terminated : Bool
deriving DecidableEq, Repr

/-- The retry loop of `dbChecker.check` (db.go lines 395-405), driven by the
finite schedule `attempts` of successive `newTx` results: each iteration
waits one 2-second tick, probes, and on error continues; on the first
transaction it runs `d.stop()`, then `tx.Commit()` (whose result `commitOk`
the source discards), and returns. An exhausted schedule leaves the loop
still running: flag kept, not terminated. -/
def checkLoop (commitOk : Bool) : List (Except DbErr Tx) → CheckRun
  | [] => CheckRun.mk true none 0 0 [] false
  | a :: rest =>
    match a with
    | Except.error _ =>
      let r := checkLoop commitOk rest
      CheckRun.mk r.finalChecking r.committedTx (r.attemptsMade + 1)
        (r.elapsedSeconds + tickSeconds)
        (CheckEvent.tick :: CheckEvent.probe :: r.events) r.terminated
    | Except.ok t =>
      let _ := commitOk
      CheckRun.mk false (some t) 1 tickSeconds
        [CheckEvent.tick, CheckEvent.probe, CheckEvent.stopFlag,
          CheckEvent.commitTx t] true

/-- `dbChecker.check` (db.go lines 389-406): `if !d.start() { return }` and
then the retry loop. `alreadyChecking` is the flag the guarding `start()`
observes. -/
def DbChecker.check (alreadyChecking : Bool) (commitOk : Bool)
    (attempts : List (Except DbErr Tx)) : CheckRun :=
  if alreadyChecking then CheckRun.mk true none 0 0 [] true
  else checkLoop commitOk attempts

/-- Interleaved state of the gateway's prober machinery: the checker flag
together with how many `check` loop instances have passed the `start()`
guard and not yet run `stop()`. -/
structure ProbeSys where
  checking : Bool
  activeLoops : Nat
deriving DecidableEq, Repr

/-- The atomic transitions the source allows on `ProbeSys`. Each spawned
`check` goroutine first runs `start()` under the mutex: with the flag clear
it flips it and becomes an active loop, with the flag set it returns at
once. An active loop either probes and fails (state unchanged) or probes
successfully, runs `stop()` and leaves. -/
inductive ProbeStep : ProbeSys → ProbeSys → Prop where
  | startAcquired (n : Nat) :
      ProbeStep (ProbeSys.mk false n) (ProbeSys.mk true (n + 1))
  | startRefused (n : Nat) :
      ProbeStep (ProbeSys.mk true n) (ProbeSys.mk true n)
  | probeFail (c : Bool) (n : Nat) :
      ProbeStep (ProbeSys.mk c (n + 1)) (ProbeSys.mk c (n + 1))
  | probeSuccess (c : Bool) (n : Nat) :
      ProbeStep (ProbeSys.mk c (n + 1)) (ProbeSys.mk false n)

/-- States reachable from the initial zero-valued checker with no loops. -/
def ProbeReachable (s : ProbeSys) : Prop :=
  Relation.ReflTransGen ProbeStep (ProbeSys.mk false 0) s

/-- The single-prober invariant: never more than one active loop, and the
flag is set exactly when one loop is active. -/
def probeInv (s : ProbeSys) : Prop :=
  s.activeLoops ≤ 1 ∧ (s.checking = true ↔ s.activeLoops = 1)

/-- `a` is an error result of a probe attempt. -/
def isErrRes : Except DbErr Tx → Bool
  | Except.error _ => true
  | Except.ok _ => false

/-- The event trace the retry loop accumulates over failing attempts. -/
def failEvents : List (Except DbErr Tx) → List CheckEvent
  | [] => []
  | _ :: rest => CheckEvent.tick :: CheckEvent.probe :: failEvents rest

/-- A concrete pool, used only to evaluate the development on closed
inputs. -/
def samplePool : Pool :=
  Pool.mk (fun q => (q.length : Int)) (fun q => (q.length : Int))
    (fun q => (q.length : Int)) true true

/-- A gateway over `samplePool` whose probing flag is `b`. -/
def sampleDB (b : Bool) : DB :=
  DB.mk samplePool (DbChecker.mk b) 3

/-- Each atomic transition preserves the single-prober invariant. -/
theorem probeInv_step (a b : ProbeSys) (hab : ProbeStep a b)
    (ha : probeInv a) : probeInv b := by
  cases hab with
  | startAcquired n =>
    simp [probeInv] at ha ⊢
    omega
  | startRefused n => exact ha
  | probeFail c n => exact ha
  | probeSuccess c n =>
    simp [probeInv] at ha ⊢
    obtain ⟨h1, _⟩ := ha
    omega

/-- Every reachable state of the prober machinery satisfies the
single-prober invariant. -/
theorem probeInv_of_reachable (s : ProbeSys) (h : ProbeReachable s) :
    probeInv s := by
  induction h with
  | refl => simp [probeInv]
  | tail hsteps hstep ih => exact probeInv_step _ _ hstep ih

/-- The retry loop keeps the flag, commits nothing, attempts once per tick
and stays unterminated across any all-failure schedule. -/
theorem checkLoop_all_fail (co : Bool) (fails : List (Except DbErr Tx))
    (h : ∀ a ∈ fails, isErrRes a = true) :
    checkLoop co fails =
      CheckRun.mk true none fails.length (tickSeconds * fails.length)
        (failEvents fails) false := by
  induction fails with
  | nil => simp [checkLoop, failEvents]
  | cons a rest ih =>
    have ha : isErrRes a = true := h a (List.mem_cons_self a rest)
    have hrest : ∀ b ∈ rest, isErrRes b = true :=
      fun b hb => h b (List.mem_cons_of_mem a hb)
    cases a with
    | error e =>
      simp [checkLoop, ih hrest, failEvents, Nat.mul_add, Nat.mul_succ]
    | ok t => simp [isErrRes] at ha

/-- The retry loop on a schedule whose first success follows `fails`
failures: it clears the flag, commits exactly that transaction after
`fails.length + 1` attempts at fixed cadence, runs `stop` before the commit
and terminates without consuming the rest of the schedule. -/
theorem checkLoop_first_success (co : Bool) (fails rest : List (Except DbErr Tx))
    (t : Tx) (h : ∀ a ∈ fails, isErrRes a = true) :
    checkLoop co (fails ++ Except.ok t :: rest) =
      CheckRun.mk false (some t) (fails.length + 1)
        (tickSeconds * (fails.length + 1))
        (failEvents fails ++
          [CheckEvent.tick, CheckEvent.probe, CheckEvent.stopFlag,
            CheckEvent.commitTx t]) true := by
  induction fails with
  | nil => simp [checkLoop, failEvents, tickSeconds]
  | cons a fs ih =>
    have ha : isErrRes a = true := h a (List.mem_cons_self a fs)
    have hrest : ∀ b ∈ fs, isErrRes b = true :=
      fun b hb => h b (List.mem_cons_of_mem a hb)
    cases a with
    | error e =>
      simp [checkLoop, ih hrest, failEvents, Nat.mul_add, Nat.mul_succ]
    | ok u => simp [isErrRes] at ha

/-- C1: when the underlying begin yields a transaction only after the
timeout case of the select has fired, `newTx` returns `ErrNewTxTimedOut`,
the background goroutine commits the late transaction itself and the caller
never receives it; and over all schedules, a created transaction is
released by exactly one party — the caller on the success path, the
acquirer on the late path. -/
theorem newTx_late_transaction_released_by_acquirer
    (t : Tx) (arrival : Arrival) (tieTx commitOk : Bool)
    (h : selCase arrival tieTx = SelCase.timer) :
    (newTxRun (Except.ok t) arrival tieTx commitOk).result
        = Except.error DbErr.newTxTimedOut ∧
    (newTxRun (Except.ok t) arrival tieTx commitOk).lateCommit = some t ∧
    (newTxRun (Except.ok t) arrival tieTx commitOk).callerTx = none ∧
    ∀ (a : Arrival) (c co : Bool),
      releasedByExactlyOne t (newTxRun (Except.ok t) a c co) := by
  refine ⟨?_, ?_, ?_, ?_⟩
  · simp [newTxRun, h, Channel.make, Channel.send, Channel.recv]
  · simp [newTxRun, h, Channel.make, Channel.send, Channel.recv]
  · simp [newTxRun, h, Channel.make, Channel.send, Channel.recv]
  · intro a c co
    cases a <;> cases c <;>
      simp [releasedByExactlyOne, newTxRun, selCase, Channel.make,
        Channel.send, Channel.recv]

/-- Witness for C1 at a concrete late arrival. -/
theorem newTx_late_transaction_released_by_acquirer_witness :
    (newTxRun (Except.ok 7) Arrival.after true false).lateCommit = some 7 :=
  (newTx_late_transaction_released_by_acquirer 7 Arrival.after true false
    rfl).2.1

/-- C2: while the checker reports unreachable, `DB.Begin` fails fast with
`ErrUnreachable`: the acquirer (and hence the pool's begin primitive) is
not invoked, no checker goroutine is spawned and the gateway state is left
untouched, whatever the underlying pool and scheduler would have done. -/
theorem begin_fail_fast_while_probing
    (db : DB) (beginRes : Except String Tx) (arrival : Arrival)
    (tieTx commitOk : Bool) (h : db.checker.unreachable = true) :
    (DB.begin db beginRes arrival tieTx commitOk).result
        = Except.error DbErr.unreachableDb ∧
    (DB.begin db beginRes arrival tieTx commitOk).acquirerInvoked = false ∧
    (DB.begin db beginRes arrival tieTx commitOk).checkerAfter = db.checker ∧
    (DB.begin db beginRes arrival tieTx commitOk).spawnedChecker = false := by
  simp [DB.begin, h]

/-- Witness for C2 at a concrete probing gateway. -/
theorem begin_fail_fast_while_probing_witness :
    (DB.begin (sampleDB true) (Except.ok 0) Arrival.before true true).result
        = Except.error DbErr.unreachableDb :=
  (begin_fail_fast_while_probing (sampleDB true) (Except.ok 0) Arrival.before
    true true rfl).1

/-- C3: when the acquirer times out, `DB.Begin` returns `ErrNewTxTimedOut`
synchronously with the checker flag untouched (the caller never waits for
recovery) and spawns the checker goroutine; `start()` is the atomic
false-to-true transition shown, and in every reachable interleaving the
flag is true exactly when one prober loop instance is active (so at most
one ever runs). -/
theorem begin_timeout_spawns_single_prober
    (db : DB) (beginRes : Except String Tx) (arrival : Arrival)
    (tieTx commitOk : Bool)
    (hidle : db.checker.unreachable = false)
    (htimer : selCase arrival tieTx = SelCase.timer) :
    (DB.begin db beginRes arrival tieTx commitOk).result
        = Except.error DbErr.newTxTimedOut ∧
    (DB.begin db beginRes arrival tieTx commitOk).spawnedChecker = true ∧
    (DB.begin db beginRes arrival tieTx commitOk).checkerAfter = db.checker ∧
    DbChecker.start (DbChecker.mk false) = (true, DbChecker.mk true) ∧
    DbChecker.start (DbChecker.mk true) = (false, DbChecker.mk true) ∧
    (∀ s : ProbeSys, ProbeReachable s → probeInv s) := by
  have hres : (newTxRun beginRes arrival tieTx commitOk).result
      = Except.error DbErr.newTxTimedOut := by
    cases beginRes <;>
      simp [newTxRun, htimer, Channel.make, Channel.send, Channel.recv]
  refine ⟨?_, ?_, ?_, by simp [DbChecker.start], by simp [DbChecker.start],
    probeInv_of_reachable⟩
  · simp [DB.begin, hidle, hres]
  · simp [DB.begin, hidle, hres]
  · simp [DB.begin, hidle]

/-- Witness for C3 at a concrete timed-out call from the idle gateway. -/
theorem begin_timeout_spawns_single_prober_witness :
    (DB.begin (sampleDB false) (Except.ok 0) Arrival.after true
      true).spawnedChecker = true :=
  (begin_timeout_spawns_single_prober (sampleDB false) (Except.ok 0)
    Arrival.after true true rfl rfl).2.1

/-- C4: across an all-failure schedule the loop keeps the flag set, commits
nothing, makes one attempt per fixed 2-second tick with no backoff and no
ceiling, and does not terminate; the first successful attempt clears the
flag, commits that probe transaction, terminates the loop instance, and a
later timeout can start a new loop via the false-to-true transition. -/
theorem check_retries_until_first_success
    (co : Bool) (fails rest : List (Except DbErr Tx)) (t : Tx)
    (h : ∀ a ∈ fails, isErrRes a = true) :
    (checkLoop co fails).finalChecking = true ∧
    (checkLoop co fails).committedTx = none ∧
    (checkLoop co fails).attemptsMade = fails.length ∧
    (checkLoop co fails).elapsedSeconds = tickSeconds * fails.length ∧
    (checkLoop co fails).terminated = false ∧
    (checkLoop co (fails ++ Except.ok t :: rest)).finalChecking = false ∧
    (checkLoop co (fails ++ Except.ok t :: rest)).committedTx = some t ∧
    (checkLoop co (fails ++ Except.ok t :: rest)).attemptsMade
        = fails.length + 1 ∧
    (checkLoop co (fails ++ Except.ok t :: rest)).elapsedSeconds
        = tickSeconds * (fails.length + 1) ∧
    (checkLoop co (fails ++ Except.ok t :: rest)).terminated = true ∧
    ProbeStep (ProbeSys.mk false 0) (ProbeSys.mk true 1) := by
  rw [checkLoop_all_fail co fails h, checkLoop_first_success co fails rest t h]
  exact ⟨rfl, rfl, rfl, rfl, rfl, rfl, rfl, rfl, rfl, rfl,
    ProbeStep.startAcquired 0⟩

/-- Witness for C4: two failed probes then a success. -/
theorem check_retries_until_first_success_witness :
    (checkLoop true
      [Except.error DbErr.newTxTimedOut,
        Except.error (DbErr.underlying "conn refused"),
        Except.ok 5]).committedTx = some 5 :=
  (check_retries_until_first_success true
    [Except.error DbErr.newTxTimedOut,
      Except.error (DbErr.underlying "conn refused")] [] 5
    (by decide)).2.2.2.2.2.2.1

/-- C5: from the idle gateway, a non-timeout acquirer result is propagated
unchanged — a transaction within the timeout is returned as such and any
other underlying error (for example "disk full") is returned verbatim —
with the probing flag untouched and no checker goroutine spawned. -/
theorem begin_propagates_non_timeout
    (db : DB) (beginRes : Except String Tx) (arrival : Arrival)
    (tieTx commitOk : Bool)
    (hidle : db.checker.unreachable = false)
    (hnt : (newTxRun beginRes arrival tieTx commitOk).result
        ≠ Except.error DbErr.newTxTimedOut) :
    (DB.begin db beginRes arrival tieTx commitOk).result
        = (newTxRun beginRes arrival tieTx commitOk).result ∧
    (DB.begin db beginRes arrival tieTx commitOk).checkerAfter = db.checker ∧
    (DB.begin db beginRes arrival tieTx commitOk).spawnedChecker = false ∧
    (DB.begin db beginRes arrival tieTx commitOk).acquirerInvoked = true ∧
    (∀ (t : Tx) (a : Arrival) (c k : Bool), selCase a c = SelCase.result →
      (DB.begin db (Except.ok t) a c k).result = Except.ok t) ∧
    (∀ (e : String) (a : Arrival) (c k : Bool), selCase a c = SelCase.result →
      (DB.begin db (Except.error e) a c k).result
        = Except.error (DbErr.underlying e)) := by
  refine ⟨?_, ?_, ?_, ?_, ?_, ?_⟩
  · simp [DB.begin, hidle]
  · simp [DB.begin, hidle]
  · simp [DB.begin, hidle, hnt]
  · simp [DB.begin, hidle]
  · intro t a c k hsel
    simp [DB.begin, hidle, newTxRun, hsel, Channel.make, Channel.send,
      Channel.recv]
  · intro e a c k hsel
    simp [DB.begin, hidle, newTxRun, hsel, Channel.make, Channel.send,
      Channel.recv]

/-- Witness for C5: an immediate "disk full" error is returned unchanged
and the gateway stays idle. -/
theorem begin_propagates_non_timeout_witness :
    (DB.begin (sampleDB false) (Except.error "disk full") Arrival.before
      true true).result = Except.error (DbErr.underlying "disk full") :=
  ((begin_propagates_non_timeout (sampleDB false) (Except.error "disk full")
    Arrival.before true true rfl (by decide)).2.2.2.2.2)
    "disk full" Arrival.before true true rfl

/-- C6: in every run of `newTx` — whatever the underlying begin result, its
arrival relative to the timer, the select's pick and the commit outcome —
the background goroutine deposits its result without any channel send
blocking, its final `<-cancel` is never stuck, and it terminates. -/
theorem newTx_producer_never_blocks
    (beginRes : Except String Tx) (arrival : Arrival) (tieTx commitOk : Bool) :
    (newTxRun beginRes arrival tieTx commitOk).goroutineDone = true ∧
    (newTxRun beginRes arrival tieTx commitOk).sendBlocked = false ∧
    (newTxRun beginRes arrival tieTx commitOk).recvStuck = false := by
  cases beginRes <;> cases arrival <;> cases tieTx <;>
    simp [newTxRun, selCase, Channel.make, Channel.send, Channel.recv,
      Channel.closeCh]

/-- C7 counterexample: with the transaction and the timer ready together,
the select's uniform pseudo-random pick may take the timer case, and then
the caller receives `ErrNewTxTimedOut`, not the transaction — the tie is
not always broken in favour of the transaction. -/
theorem newTx_tie_counterexample :
    selCase Arrival.tie false = SelCase.timer ∧
    (newTxRun (Except.ok 0) Arrival.tie false true).callerTx = none ∧
    (newTxRun (Except.ok 0) Arrival.tie false true).result
        = Except.error DbErr.newTxTimedOut := by
  refine ⟨rfl, ?_, ?_⟩ <;>
    simp [newTxRun, selCase, Channel.make, Channel.send, Channel.recv]

/-- C7 amended: at a tie either case may fire; the caller receives the
transaction exactly when the pick favours the transaction case, and with
the timer pick the caller gets `ErrNewTxTimedOut` while the background
goroutine commits the transaction — either way exactly one party releases
it. -/
theorem newTx_tie_either_case (t : Tx) (co : Bool) :
    (newTxRun (Except.ok t) Arrival.tie true co).result = Except.ok t ∧
    (newTxRun (Except.ok t) Arrival.tie true co).lateCommit = none ∧
    (newTxRun (Except.ok t) Arrival.tie false co).result
        = Except.error DbErr.newTxTimedOut ∧
    (newTxRun (Except.ok t) Arrival.tie false co).lateCommit = some t ∧
    releasedByExactlyOne t (newTxRun (Except.ok t) Arrival.tie true co) ∧
    releasedByExactlyOne t (newTxRun (Except.ok t) Arrival.tie false co) := by
  refine ⟨?_, ?_, ?_, ?_, ?_, ?_⟩ <;>
    simp [newTxRun, selCase, releasedByExactlyOne, Channel.make,
      Channel.send, Channel.recv]

/-- C8 counterexample: a call of `DB.Begin` that returns `ErrNewTxTimedOut`
emits no message at all through the log package — the body of `Begin`
contains no logging call. -/
theorem begin_timeout_no_log_counterexample :
    (DB.begin (sampleDB false) (Except.ok 0) Arrival.after true true).result
        = Except.error DbErr.newTxTimedOut ∧
    (DB.begin (sampleDB false) (Except.ok 0) Arrival.after true true).logs
        = [] := by
  constructor <;>
    simp [DB.begin, sampleDB, DbChecker.unreachable, newTxRun, selCase,
      Channel.make, Channel.send, Channel.recv]

/-- C8 amended: `DB.Begin` never emits a message through the log package,
on the timeout path or any other. -/
theorem begin_never_logs (db : DB) (beginRes : Except String Tx)
    (arrival : Arrival) (tieTx commitOk : Bool) :
    (DB.begin db beginRes arrival tieTx commitOk).logs = [] := by
  unfold DB.begin
  split <;> rfl

/-- C9: `DB` embeds the pool directly and redeclares only `Begin`, so every
other operation is the promoted pool operation, unchanged and attempted for
every checker state — including the probing one — while `Begin` under the
probing state never invokes the acquirer. -/
theorem promoted_ops_bypass_gateway (pool : Pool) (checker : DbChecker)
    (tto : Nat) (q : String) :
    (DB.mk pool checker tto).query q = pool.query q ∧
    (DB.mk pool checker tto).exec q = pool.exec q ∧
    (DB.mk pool checker tto).queryRow q = pool.queryRow q ∧
    (DB.mk pool checker tto).ping = pool.ping ∧
    (DB.mk pool checker tto).closeDB = pool.closePool ∧
    (DB.mk pool (DbChecker.mk true) tto).query q = pool.query q ∧
    (∀ (beginRes : Except String Tx) (a : Arrival) (c k : Bool),
      (DB.begin (DB.mk pool (DbChecker.mk true) tto) beginRes a c
        k).acquirerInvoked = false) := by
  refine ⟨rfl, rfl, rfl, rfl, rfl, rfl, ?_⟩
  intro beginRes a c k
  simp [DB.begin, DbChecker.unreachable]

/-- The retry loop never inspects the commit outcome. -/
theorem checkLoop_commitOk_irrelevant (co1 co2 : Bool)
    (attempts : List (Except DbErr Tx)) :
    checkLoop co1 attempts = checkLoop co2 attempts := by
  induction attempts with
  | nil => rfl
  | cons a rest ih =>
    cases a with
    | error e => simp [checkLoop, ih]
    | ok t => rfl

/-- C10: wherever the layer itself commits — the goroutine's late commit in
`newTx` and the probe commit in `check` — the commit outcome is discarded:
runs with a failing and a succeeding commit are identical. On probe success
`stop` is run strictly before the commit is attempted, so the flag ends
false regardless of the commit outcome. -/
theorem layer_commit_errors_discarded
    (beginRes : Except String Tx) (arrival : Arrival) (tieTx : Bool)
    (fails rest : List (Except DbErr Tx)) (t : Tx)
    (h : ∀ a ∈ fails, isErrRes a = true) :
    newTxRun beginRes arrival tieTx true = newTxRun beginRes arrival tieTx
      false ∧
    (∀ (attempts : List (Except DbErr Tx)) (already : Bool),
      DbChecker.check already true attempts
        = DbChecker.check already false attempts) ∧
    (checkLoop true (fails ++ Except.ok t :: rest)).events
        = failEvents fails ++
          [CheckEvent.tick, CheckEvent.probe, CheckEvent.stopFlag,
            CheckEvent.commitTx t] ∧
    (checkLoop true (fails ++ Except.ok t :: rest)).finalChecking = false ∧
    (checkLoop false (fails ++ Except.ok t :: rest)).finalChecking = false := by
  refine ⟨rfl, ?_, ?_, ?_, ?_⟩
  · intro attempts already
    unfold DbChecker.check
    split
    · rfl
    · exact checkLoop_commitOk_irrelevant true false attempts
  · rw [checkLoop_first_success true fails rest t h]
  · rw [checkLoop_first_success true fails rest t h]
  · rw [checkLoop_first_success false fails rest t h]

/-- Witness for C10: the probe run with one failure stops the flag before
committing transaction 9. -/
theorem layer_commit_errors_discarded_witness :
    (checkLoop true
      [Except.error DbErr.newTxTimedOut, Except.ok 9]).events
        = [CheckEvent.tick, CheckEvent.probe, CheckEvent.tick,
            CheckEvent.probe, CheckEvent.stopFlag, CheckEvent.commitTx 9] :=
  (layer_commit_errors_discarded (Except.ok 0) Arrival.before true
    [Except.error DbErr.newTxTimedOut] [] 9 (by decide)).2.2.1

end Gostk
